import Mathlib

/-!
Verification development for the fivesim TypeScript client.

The repository is a thin typed binding over an HTTP API: each method of
`FiveSimClient` (src/client.ts) builds a URL (path plus an optional query
string assembled with `URLSearchParams`), issues one GET through an `axios`
instance configured in the constructor, and returns the parsed JSON body;
failures are translated by `handleError` into the error classes of
src/errors.ts.  The definitions below are a shallow embedding of that code:
JavaScript strings become `String`, JS numbers used as counts/ids/timeouts
become `Nat`, optional values become `Option`, and JS truthiness on a string
is `≠ ""`, on a number `≠ 0`.  Response bodies are modelled by `Body`
(a JSON string, or an object whose optional `message` field is the only
property the client ever reads).
-/

namespace FiveSim

/-- A response body as far as src/client.ts inspects it: either a plain JSON
string, or an object with an optional string `message` property (the code
reads no other property; a missing object/null body behaves like
`obj none`). -/
inductive Body where
  | str (s : String)
  | obj (message : Option String)
deriving DecidableEq

/-- Substring test on character lists: does `pat` occur contiguously? -/
def containsAux (pat : List Char) : List Char → Bool
  | [] => decide (pat = [])
  | c :: rest => decide ((c :: rest).take pat.length = pat) || containsAux pat rest

/-- JavaScript `s.includes(pat)`. -/
def strIncludes (s pat : String) : Bool :=
  containsAux pat.data s.data

/-- JavaScript `s.toLowerCase()` (the client only compares ASCII text),
written as a character-wise map so that it evaluates by kernel reduction. -/
def jsToLower (s : String) : String :=
  String.mk (s.data.map Char.toLower)

/-- Upper-case hexadecimal digit for a value below 16. -/
def hexDigit (n : Nat) : Char :=
  if n < 10 then Char.ofNat (48 + n) else Char.ofNat (55 + n)

/-- Percent-escape of one byte, `%XX` with upper-case hex. -/
def percentByte (b : Nat) : String :=
  String.mk [Char.ofNat 37, hexDigit (b / 16 % 16), hexDigit (b % 16)]

/-- UTF-8 bytes of a code point. -/
def utf8Bytes (n : Nat) : List Nat :=
  if n < 128 then [n]
  else if n < 2048 then [192 + n / 64, 128 + n % 64]
  else if n < 65536 then [224 + n / 4096, 128 + n / 64 % 64, 128 + n % 64]
  else [240 + n / 262144, 128 + n / 4096 % 64, 128 + n / 64 % 64, 128 + n % 64]

/-- Bytes `URLSearchParams` serialization leaves unescaped:
alphanumerics and `*` `-` `.` `_` (application/x-www-form-urlencoded). -/
def isSafeFormByte (b : Nat) : Bool :=
  (48 ≤ b && b ≤ 57) || (65 ≤ b && b ≤ 90) || (97 ≤ b && b ≤ 122) ||
  b = 42 || b = 45 || b = 46 || b = 95

/-- One byte of application/x-www-form-urlencoded output: space becomes `+`,
safe bytes pass through, everything else is percent-escaped. -/
def formEncodeByte (b : Nat) : String :=
  if b = 32 then "+"
  else if isSafeFormByte b then String.singleton (Char.ofNat b)
  else percentByte b

/-- application/x-www-form-urlencoded encoding of a string, as
`URLSearchParams.toString` applies to each name and value. -/
def formEncodeString (s : String) : String :=
  String.join (((s.data.map fun c => utf8Bytes c.toNat).flatten).map formEncodeByte)

/-- `URLSearchParams.toString()` over an ordered list of appended
name/value pairs. -/
def searchParamsToString (ps : List (String × String)) : String :=
  String.intercalate "&" (ps.map fun p => formEncodeString p.1 ++ "=" ++ formEncodeString p.2)

/-- The error value surfaced to callers.  src/errors.ts defines one base
class `FiveSimError` and four subclasses that differ only in their `name`,
their default message, and a hard-wired `statusCode`; `statusCode` and
`response` are optional fields of the base class. -/
structure FiveSimErrorS where
  name : String
  message : String
  statusCode : Option Nat
  response : Option Body
deriving DecidableEq

/-- `new FiveSimError(message, statusCode?, response?)`. -/
def mkFiveSimError (message : String) (statusCode : Option Nat) (response : Option Body) : FiveSimErrorS :=
  ⟨"FiveSimError", message, statusCode, response⟩

/-- `new AuthenticationError()` — default message, statusCode 401. -/
def mkAuthenticationError : FiveSimErrorS :=
  ⟨"AuthenticationError", "Invalid or missing API key", some 401, none⟩

/-- `new RateLimitError()` — default message, statusCode 429. -/
def mkRateLimitError : FiveSimErrorS :=
  ⟨"RateLimitError", "Rate limit exceeded. Please wait before making more requests.", some 429, none⟩

/-- `new ServiceUnavailableError()` — default message, statusCode 503. -/
def mkServiceUnavailableError : FiveSimErrorS :=
  ⟨"ServiceUnavailableError", "Service temporarily unavailable. Server-side limits reached.", some 503, none⟩

/-- `new NoNumbersError(message)` — statusCode 400. -/
def mkNoNumbersError (message : String) : FiveSimErrorS :=
  ⟨"NoNumbersError", message, some 400, none⟩

/-- The `error.response` object when an HTTP response was received. -/
structure HttpErrorResponse where
  status : Nat
  data : Body
deriving DecidableEq

/-- Message extraction in the 400 branch of `handleError`:
`typeof data === 'string' ? data : (data as any)?.message || ''`. -/
def extractMessage400 : Body → String
  | .str s => s
  | .obj m => m.getD ""

/-- Message extraction in the default branch of `handleError`:
`typeof data === 'string' ? data : (data as any)?.message || 'Unknown error'`. -/
def extractMessageDefault : Body → String
  | .str s => s
  | .obj (some s) => if s = "" then "Unknown error" else s
  | .obj none => "Unknown error"

/-- The no-numbers text heuristic applied to the extracted 400 message:
`message.toLowerCase().includes('no') || message.toLowerCase().includes('not available')`. -/
def noNumbersHeuristic (message : String) : Bool :=
  strIncludes (jsToLower message) "no" || strIncludes (jsToLower message) "not available"

/-- `FiveSimClient.handleError` (src/client.ts): `response` is
`error.response` (absent on a transport failure) and `errorMessage` is
`error.message`.  The `switch (status)` is rendered as the equivalent
if-chain. -/
def handleError (response : Option HttpErrorResponse) (errorMessage : String) : FiveSimErrorS :=
  match response with
  | none => mkFiveSimError (if errorMessage = "" then "Network error" else errorMessage) none none
  | some r =>
    if r.status = 401 then mkAuthenticationError
    else if r.status = 429 then mkRateLimitError
    else if r.status = 503 then mkServiceUnavailableError
    else if r.status = 400 then
      let message := extractMessage400 r.data
      if noNumbersHeuristic message then mkNoNumbersError message
      else mkFiveSimError (if message = "" then "Bad request" else message) (some r.status) (some r.data)
    else
      mkFiveSimError (extractMessageDefault r.data) (some r.status) (some r.data)

/-- `FiveSimConfig` (src/types.ts): `apiKey` required, `baseUrl` and
`timeout` optional. -/
structure FiveSimConfig where
  apiKey : String
  baseUrl : Option String
  timeout : Option Nat
deriving DecidableEq

/-- The state the constructor fixes on the axios instance: resolved base
URL, resolved timeout, and the default headers attached to every request. -/
structure ClientState where
  baseURL : String
  timeout : Nat
  headers : List (String × String)
deriving DecidableEq

/-- The `FiveSimClient` constructor: `config.baseUrl || 'https://5sim.net/v1'`
and `config.timeout || 30000` (JS `||` falls through on the falsy values
`""` and `0`, not only on absence), plus the two default headers. -/
def createClient (config : FiveSimConfig) : ClientState :=
  ⟨(match config.baseUrl with
    | some b => if b = "" then "https://5sim.net/v1" else b
    | none => "https://5sim.net/v1"),
   (match config.timeout with
    | some t => if t = 0 then 30000 else t
    | none => 30000),
   [("Authorization", "Bearer " ++ config.apiKey), ("Accept", "application/json")]⟩

/-- `OrderHistoryOptions` (src/types.ts); the whole options object may be
absent, which behaves exactly like all fields absent, so it is modelled by
all-`none`. -/
structure OrderHistoryOptions where
  category : Option String
  limit : Option Nat
  offset : Option Nat
deriving DecidableEq

/-- `GetPricesOptions` (src/types.ts). -/
structure GetPricesOptions where
  country : Option String
  product : Option String
deriving DecidableEq

/-- `BuyActivationOptions` (src/types.ts). -/
structure BuyActivationOptions where
  country : String
  operator : String
  product : String
  forwarding : Option String
deriving DecidableEq

/-- `BuyHostingOptions` (src/types.ts). -/
structure BuyHostingOptions where
  country : String
  operator : String
  product : String
deriving DecidableEq

/-- The `URLSearchParams` pairs `getOrderHistory` appends:
`if (options?.category)` and `if (options?.limit)` are truthiness tests, but
offset is guarded by `if (options?.offset !== undefined)`. -/
def getOrderHistoryParams (o : OrderHistoryOptions) : List (String × String) :=
  (match o.category with
    | some c => if c = "" then [] else [("category", c)]
    | none => []) ++
  (match o.limit with
    | some l => if l = 0 then [] else [("limit", toString l)]
    | none => []) ++
  (match o.offset with
    | some off => [("offset", toString off)]
    | none => [])

/-- Attach a query string to a path the way every method does:
`` `${path}${queryString ? `?${queryString}` : ''}` ``. -/
def withQuery (path : String) (ps : List (String × String)) : String :=
  let queryString := searchParamsToString ps
  path ++ (if queryString = "" then "" else "?" ++ queryString)

/-- The URL `getOrderHistory` requests. -/
def getOrderHistoryUrl (o : OrderHistoryOptions) : String :=
  withQuery "/user/orders" (getOrderHistoryParams o)

/-- The `URLSearchParams` pairs `getPrices` appends: country first, then
product, each under a truthiness guard. -/
def getPricesParams (o : GetPricesOptions) : List (String × String) :=
  (match o.country with
    | some c => if c = "" then [] else [("country", c)]
    | none => []) ++
  (match o.product with
    | some p => if p = "" then [] else [("product", p)]
    | none => [])

/-- The URL `getPrices` requests. -/
def getPricesUrl (o : GetPricesOptions) : String :=
  withQuery "/guest/prices" (getPricesParams o)

/-- The `URLSearchParams` pairs `buyActivation` appends:
`if (forwarding) params.append('forwarding', '1')`. -/
def buyActivationParams (o : BuyActivationOptions) : List (String × String) :=
  match o.forwarding with
  | some f => if f = "" then [] else [("forwarding", "1")]
  | none => []

/-- The URL `buyActivation` requests. -/
def buyActivationUrl (o : BuyActivationOptions) : String :=
  withQuery ("/user/buy/activation/" ++ o.country ++ "/" ++ o.operator ++ "/" ++ o.product)
    (buyActivationParams o)

/-- One public method call of `FiveSimClient` together with its arguments. -/
inductive Operation where
  | getProfile
  | getOrderHistory (options : OrderHistoryOptions)
  | getCountries
  | getProducts (country : String) (operator : String)
  | getPrices (options : GetPricesOptions)
  | buyActivation (options : BuyActivationOptions)
  | buyHosting (options : BuyHostingOptions)
  | checkOrder (id : Nat)
  | finishOrder (id : Nat)
  | cancelOrder (id : Nat)
  | banNumber (id : Nat)
deriving DecidableEq

/-- The relative URL each method passes to `this.client.get`. -/
def operationUrl : Operation → String
  | .getProfile => "/user/profile"
  | .getOrderHistory o => getOrderHistoryUrl o
  | .getCountries => "/guest/countries"
  | .getProducts c op => "/guest/products/" ++ c ++ "/" ++ op
  | .getPrices o => getPricesUrl o
  | .buyActivation o => buyActivationUrl o
  | .buyHosting o => "/user/buy/hosting/" ++ o.country ++ "/" ++ o.operator ++ "/" ++ o.product
  | .checkOrder id => "/user/check/" ++ toString id
  | .finishOrder id => "/user/finish/" ++ toString id
  | .cancelOrder id => "/user/cancel/" ++ toString id
  | .banNumber id => "/user/ban/" ++ toString id

/-- A concrete HTTP request as the axios instance emits it: method, full
URL, the instance default headers, and the instance timeout. -/
structure Request where
  method : String
  url : String
  headers : List (String × String)
  timeout : Nat
deriving DecidableEq

/-- The single request a method call issues: every method goes through
`this.client.get`, so the request carries the constructor-fixed headers,
timeout and base URL. -/
def requestFor (config : FiveSimConfig) (op : Operation) : Request :=
  let st := createClient config
  ⟨"GET", st.baseURL ++ operationUrl op, st.headers, st.timeout⟩

/-- `OrderStatus` (src/types.ts). -/
inductive OrderStatus where
  | PENDING
  | RECEIVED
  | CANCELED
  | TIMEOUT
  | FINISHED
  | BANNED
deriving DecidableEq

/-- `SMS` (src/types.ts). -/
structure SMS where
  created_at : String
  date : String
  sender : String
  text : String
  code : String
deriving DecidableEq

/-- `Order` (src/types.ts).  The JS `price` number is modelled as an exact
rational. -/
structure Order where
  id : Nat
  phone : String
  operator : String
  product : String
  price : Rat
  status : OrderStatus
  expires : String
  sms : List SMS
  created_at : Option String
  country : Option String
  forwarding : Option Bool
  forwarding_number : Option String
deriving DecidableEq

/-- A successful axios response as the methods see it. -/
structure AxiosResponse (α : Type) where
  status : Nat
  data : α
deriving DecidableEq

/-- The success arm of the response interceptor: `(response) => response`. -/
def successInterceptor {α : Type} (r : AxiosResponse α) : AxiosResponse α :=
  r

/-- `checkOrder` on a successful response:
`const { data } = await this.client.get<Order>(url); return data;`. -/
def checkOrder (id : Nat) (response : AxiosResponse Order) : Order :=
  (successInterceptor response).data

/-- What the transport reports back for the single GET of one call. -/
inductive TransportOutcome where
  | success (status : Nat) (body : Body)
  | httpError (status : Nat) (body : Body)
  | networkFailure (message : String)
deriving DecidableEq

/-- One complete method invocation: the list of requests put on the wire
(each method performs exactly one `this.client.get`, with no retry loop
anywhere in src/client.ts) and the outcome delivered to the caller — the
parsed body on success, or the `handleError` translation rejected through
the interceptor. -/
def executeOperation (config : FiveSimConfig) (op : Operation) (outcome : TransportOutcome) :
    List Request × Except FiveSimErrorS Body :=
  ([requestFor config op],
   match outcome with
   | .success _ b => .ok b
   | .httpError s b => .error (handleError (some ⟨s, b⟩) "Request failed")
   | .networkFailure m => .error (handleError none m))

/-- C1: an HTTP error response with status 401 always maps to the
authentication error, 429 to the rate-limit error, 503 to the
service-unavailable error, each regardless of body; a 400 whose extracted
body text satisfies the case-insensitive no/not-available heuristic maps to
the no-numbers error carrying that text, and a 400 failing it falls back to
a generic error; every other status maps to a generic error carrying the
original status code and raw body. -/
theorem c1_error_classification (d d1 d2 : Body) (s : Nat) (m : String)
    (h1 : noNumbersHeuristic (extractMessage400 d1) = true)
    (h2 : noNumbersHeuristic (extractMessage400 d2) = false)
    (hs1 : s ≠ 401) (hs2 : s ≠ 429) (hs3 : s ≠ 503) (hs4 : s ≠ 400) :
    handleError (some ⟨401, d⟩) m = mkAuthenticationError ∧
    handleError (some ⟨429, d⟩) m = mkRateLimitError ∧
    handleError (some ⟨503, d⟩) m = mkServiceUnavailableError ∧
    handleError (some ⟨400, d1⟩) m = mkNoNumbersError (extractMessage400 d1) ∧
    handleError (some ⟨400, d2⟩) m =
      mkFiveSimError (if extractMessage400 d2 = "" then "Bad request" else extractMessage400 d2)
        (some 400) (some d2) ∧
    handleError (some ⟨s, d⟩) m = mkFiveSimError (extractMessageDefault d) (some s) (some d) := by
  refine ⟨?_, ?_, ?_, ?_, ?_, ?_⟩ <;>
    simp [handleError, h1, h2, hs1, hs2, hs3, hs4]

/-- C1 witness: the classification evaluated at concrete responses —
status 401, a 400 body reading "no free phones", a 400 body reading
"bad request field", and status 500. -/
theorem c1_error_classification_witness :
    handleError (some ⟨401, Body.str "Unauthorized"⟩) "Request failed" = mkAuthenticationError ∧
    handleError (some ⟨429, Body.str "Unauthorized"⟩) "Request failed" = mkRateLimitError ∧
    handleError (some ⟨503, Body.str "Unauthorized"⟩) "Request failed" = mkServiceUnavailableError ∧
    handleError (some ⟨400, Body.str "no free phones"⟩) "Request failed" =
      mkNoNumbersError (extractMessage400 (Body.str "no free phones")) ∧
    handleError (some ⟨400, Body.str "bad request field"⟩) "Request failed" =
      mkFiveSimError
        (if extractMessage400 (Body.str "bad request field") = "" then "Bad request"
         else extractMessage400 (Body.str "bad request field"))
        (some 400) (some (Body.str "bad request field")) ∧
    handleError (some ⟨500, Body.str "Unauthorized"⟩) "Request failed" =
      mkFiveSimError (extractMessageDefault (Body.str "Unauthorized")) (some 500)
        (some (Body.str "Unauthorized")) :=
  c1_error_classification (Body.str "Unauthorized") (Body.str "no free phones")
    (Body.str "bad request field") 500 "Request failed"
    (by decide) (by decide) (by decide) (by decide) (by decide) (by decide)

/-- C2: when no HTTP response was received, the surfaced error is the plain
transport-kind value — base name, no status code — carrying the underlying
transport message, and is neither the authentication kind, nor the
rate-limit kind, nor any kind carrying an HTTP status. -/
theorem c2_network_error (m : String) (h : m ≠ "") :
    handleError none m = mkFiveSimError m none none ∧
    (handleError none m).statusCode = none ∧
    (handleError none m).name ≠ "AuthenticationError" ∧
    (handleError none m).name ≠ "RateLimitError" ∧
    (handleError none m).name ≠ "ServiceUnavailableError" ∧
    (handleError none m).message = m := by
  refine ⟨?_, ?_, ?_, ?_, ?_, ?_⟩ <;>
    simp [handleError, mkFiveSimError, h]

/-- C2 witness: a concrete transport failure message. -/
theorem c2_network_error_witness :
    handleError none "timeout of 30000ms exceeded" =
      mkFiveSimError "timeout of 30000ms exceeded" none none ∧
    (handleError none "timeout of 30000ms exceeded").statusCode = none ∧
    (handleError none "timeout of 30000ms exceeded").name ≠ "AuthenticationError" ∧
    (handleError none "timeout of 30000ms exceeded").name ≠ "RateLimitError" ∧
    (handleError none "timeout of 30000ms exceeded").name ≠ "ServiceUnavailableError" ∧
    (handleError none "timeout of 30000ms exceeded").message = "timeout of 30000ms exceeded" :=
  c2_network_error "timeout of 30000ms exceeded" (by decide)

/-- C10: every error built from an HTTP error response carries the
triggering status as its statusCode, the four named variants carry the
fixed codes 401/429/503/400, and the error built when no response was
received carries no statusCode at all. -/
theorem c10_status_codes (s : Nat) (d : Body) (m msg : String) :
    (handleError (some ⟨s, d⟩) m).statusCode = some s ∧
    (handleError none m).statusCode = none ∧
    mkAuthenticationError.statusCode = some 401 ∧
    mkRateLimitError.statusCode = some 429 ∧
    mkServiceUnavailableError.statusCode = some 503 ∧
    (mkNoNumbersError msg).statusCode = some 400 := by
  refine ⟨?_, ?_, rfl, rfl, rfl, rfl⟩
  · by_cases h1 : s = 401
    · subst h1; simp [handleError, mkAuthenticationError]
    · by_cases h2 : s = 429
      · subst h2; simp [handleError, mkRateLimitError]
      · by_cases h3 : s = 503
        · subst h3; simp [handleError, mkServiceUnavailableError]
        · by_cases h4 : s = 400
          · subst h4
            by_cases h5 : noNumbersHeuristic (extractMessage400 d) = true
            · simp [handleError, h5, mkNoNumbersError]
            · simp [handleError, h5, mkFiveSimError]
          · simp [handleError, h1, h2, h3, h4, mkFiveSimError]
  · simp [handleError, mkFiveSimError]

/-- C3 counterexample: with `{limit: 0}` the limit option is defined, yet
`getOrderHistory` appends no parameter at all and requests the bare
`/user/orders` — defined-ness alone does not govern presence, JS truthiness
does. -/
theorem c3_counterexample :
    (OrderHistoryOptions.mk none (some 0) none).limit.isSome = true ∧
    getOrderHistoryParams ⟨none, some 0, none⟩ = [] ∧
    getOrderHistoryUrl ⟨none, some 0, none⟩ = "/user/orders" := by
  refine ⟨rfl, rfl, by decide⟩

/-- C3 (amended): category appears in the get-order-history query exactly
when it is defined and non-empty, limit exactly when it is defined and
non-zero, offset exactly when it is defined; with
`{category: "activation", limit: 10, offset: 0}` the URL is
`/user/orders?category=activation&limit=10&offset=0`, and with no options
it is `/user/orders` with no query separator. -/
theorem c3_order_history_query (o : OrderHistoryOptions) :
    ("category" ∈ (getOrderHistoryParams o).map Prod.fst ↔ o.category.getD "" ≠ "") ∧
    ("limit" ∈ (getOrderHistoryParams o).map Prod.fst ↔ o.limit.getD 0 ≠ 0) ∧
    ("offset" ∈ (getOrderHistoryParams o).map Prod.fst ↔ o.offset ≠ none) ∧
    getOrderHistoryUrl ⟨some "activation", some 10, some 0⟩ =
      "/user/orders?category=activation&limit=10&offset=0" ∧
    getOrderHistoryUrl ⟨none, none, none⟩ = "/user/orders" := by
  obtain ⟨cat, lim, off⟩ := o
  refine ⟨?_, ?_, ?_, by decide, by decide⟩ <;>
    rcases cat with _ | c <;> rcases lim with _ | l <;> rcases off with _ | off <;>
    simp [getOrderHistoryParams]

/-- C4: `getPrices` with no options requests exactly `/guest/prices` with
no separator; with both country and product set (and non-empty) the
parameters are appended in the order country then product, and with
`{country: "russia", product: "telegram"}` the URL is
`/guest/prices?country=russia&product=telegram`. -/
theorem c4_prices_url (c p : String) (hc : c ≠ "") (hp : p ≠ "") :
    getPricesUrl ⟨none, none⟩ = "/guest/prices" ∧
    getPricesParams ⟨some c, some p⟩ = [("country", c), ("product", p)] ∧
    getPricesUrl ⟨some "russia", some "telegram"⟩ =
      "/guest/prices?country=russia&product=telegram" := by
  refine ⟨by decide, ?_, by decide⟩
  simp [getPricesParams, hc, hp]

/-- C4 witness: the parameter pair at `{country: "russia", product: "telegram"}`. -/
theorem c4_prices_url_witness :
    getPricesUrl ⟨none, none⟩ = "/guest/prices" ∧
    getPricesParams ⟨some "russia", some "telegram"⟩ =
      [("country", "russia"), ("product", "telegram")] ∧
    getPricesUrl ⟨some "russia", some "telegram"⟩ =
      "/guest/prices?country=russia&product=telegram" :=
  c4_prices_url "russia" "telegram" (by decide) (by decide)

/-- C5: `buyActivation` with any truthy (non-empty) forwarding string
appends exactly `?forwarding=1` to
`/user/buy/activation/{country}/{operator}/{product}`, whatever the string
was; with forwarding absent no query string and no `?` is appended. -/
theorem c5_buy_activation_forwarding (c op p f : String) (hf : f ≠ "") :
    buyActivationUrl ⟨c, op, p, some f⟩ =
      "/user/buy/activation/" ++ c ++ "/" ++ op ++ "/" ++ p ++ "?forwarding=1" ∧
    buyActivationUrl ⟨c, op, p, none⟩ =
      "/user/buy/activation/" ++ c ++ "/" ++ op ++ "/" ++ p := by
  have hq : searchParamsToString [("forwarding", "1")] = "forwarding=1" := by decide
  have hqm : ("?" : String) ++ "forwarding=1" = "?forwarding=1" := by decide
  constructor
  · simp only [buyActivationUrl, buyActivationParams, withQuery, if_neg hf, hq]
    rw [if_neg (by decide : ¬("forwarding=1" = ""))]
    simp [hqm, String.append_assoc]
  · simp [buyActivationUrl, buyActivationParams, withQuery, searchParamsToString,
      String.intercalate, String.append_empty]

/-- C5 witness: the test-suite inputs — forwarding `"+1234567890"` appends
`?forwarding=1`; absent forwarding appends nothing. -/
theorem c5_buy_activation_forwarding_witness :
    buyActivationUrl ⟨"russia", "any", "telegram", some "+1234567890"⟩ =
      "/user/buy/activation/" ++ "russia" ++ "/" ++ "any" ++ "/" ++ "telegram" ++ "?forwarding=1" ∧
    buyActivationUrl ⟨"russia", "any", "telegram", none⟩ =
      "/user/buy/activation/" ++ "russia" ++ "/" ++ "any" ++ "/" ++ "telegram" :=
  c5_buy_activation_forwarding "russia" "any" "telegram" "+1234567890" (by decide)

/-- C6: for every configuration and every operation — the guest catalog
calls included — the issued request carries an Authorization header whose
value is exactly `Bearer ` followed by the configured apiKey. -/
theorem c6_bearer_header (config : FiveSimConfig) (op : Operation) :
    (requestFor config op).headers.lookup "Authorization" =
      some ("Bearer " ++ config.apiKey) ∧
    ("Authorization", "Bearer " ++ config.apiKey) ∈ (requestFor config op).headers := by
  refine ⟨rfl, ?_⟩
  simp [requestFor, createClient]

/-- C7 counterexample: supplying `baseUrl: ""` and `timeout: 0` does not
use the supplied values as given — JS `||` treats them as falsy, so the
constructor silently substitutes the defaults. -/
theorem c7_counterexample :
    (createClient ⟨"key", some "", some 0⟩).baseURL = "https://5sim.net/v1" ∧
    (createClient ⟨"key", some "", some 0⟩).baseURL ≠ "" ∧
    (createClient ⟨"key", some "", some 0⟩).timeout = 30000 ∧
    (createClient ⟨"key", some "", some 0⟩).timeout ≠ 0 := by
  decide

/-- C7 (amended): an absent baseUrl resolves to the production root
`https://5sim.net/v1` and an absent timeout to 30000 ms; a supplied truthy
value — a non-empty baseUrl, a non-zero timeout — is used as given (the
falsy values `""` and `0` fall back to the defaults). -/
theorem c7_config_defaults (k b : String) (t : Nat) (ob : Option String) (ot : Option Nat)
    (hb : b ≠ "") (ht : t ≠ 0) :
    (createClient ⟨k, none, ot⟩).baseURL = "https://5sim.net/v1" ∧
    (createClient ⟨k, ob, none⟩).timeout = 30000 ∧
    (createClient ⟨k, some b, ot⟩).baseURL = b ∧
    (createClient ⟨k, ob, some t⟩).timeout = t := by
  refine ⟨rfl, rfl, ?_, ?_⟩ <;> simp [createClient, hb, ht]

/-- C7 witness: the test-suite configurations — custom base URL
`https://custom.api` and custom timeout 60000 are used as given, absent
options get the defaults. -/
theorem c7_config_defaults_witness :
    (createClient ⟨"test-api-key", none, none⟩).baseURL = "https://5sim.net/v1" ∧
    (createClient ⟨"test-api-key", none, none⟩).timeout = 30000 ∧
    (createClient ⟨"test-api-key", some "https://custom.api", none⟩).baseURL =
      "https://custom.api" ∧
    (createClient ⟨"test-api-key", none, some 60000⟩).timeout = 60000 :=
  c7_config_defaults "test-api-key" "https://custom.api" 60000 none none
    (by decide) (by decide)

/-- The sample SMS entry of the repository's checkOrder test. -/
def sampleSMS : SMS :=
  ⟨"2024-01-01T11:00:00Z", "2024-01-01T11:00:00Z", "Telegram", "Your code is 12345", "12345"⟩

/-- The sample Order of the repository's checkOrder test: one received SMS
whose extracted code is "12345". -/
def sampleOrder : Order :=
  ⟨12345, "79001234567", "mts", "telegram", (1 : Rat) / 2, OrderStatus.RECEIVED,
    "2024-01-01T12:00:00Z", [sampleSMS], none, none, none, none⟩

/-- C8: `checkOrder` returns the parsed response body as-is — no field is
transformed — so when the body is an Order whose sms list has one entry,
the returned Order exposes that entry's code unchanged. -/
theorem c8_check_order_roundtrip (id : Nat) (r : AxiosResponse Order) (s : SMS)
    (h : r.data.sms = [s]) :
    checkOrder id r = r.data ∧
    (checkOrder id r).sms = [s] ∧
    (checkOrder id r).sms.map SMS.code = [s.code] := by
  refine ⟨rfl, ?_, ?_⟩ <;> simp [checkOrder, successInterceptor, h]

/-- C8 witness: `checkOrder 12345` on the test-suite order — the single
SMS code "12345" comes back unchanged. -/
theorem c8_check_order_roundtrip_witness :
    checkOrder 12345 ⟨200, sampleOrder⟩ = (⟨200, sampleOrder⟩ : AxiosResponse Order).data ∧
    (checkOrder 12345 ⟨200, sampleOrder⟩).sms = [sampleSMS] ∧
    (checkOrder 12345 ⟨200, sampleOrder⟩).sms.map SMS.code = [sampleSMS.code] :=
  c8_check_order_roundtrip 12345 ⟨200, sampleOrder⟩ sampleSMS rfl

/-- C9: one invocation of any operation puts exactly one GET request on the
wire whatever the outcome — no retry, duplication or suppression — and an
HTTP error or transport failure is delivered to the caller at once as the
typed `handleError` translation, a success as the parsed body. -/
theorem c9_single_request (config : FiveSimConfig) (op : Operation)
    (outcome : TransportOutcome) (s : Nat) (b d : Body) (m : String) :
    (executeOperation config op outcome).1 = [requestFor config op] ∧
    (executeOperation config op outcome).1.length = 1 ∧
    (requestFor config op).method = "GET" ∧
    (executeOperation config op (.success s d)).2 = .ok d ∧
    (executeOperation config op (.httpError s b)).2 =
      .error (handleError (some ⟨s, b⟩) "Request failed") ∧
    (executeOperation config op (.networkFailure m)).2 = .error (handleError none m) :=
  ⟨rfl, rfl, rfl, rfl, rfl, rfl⟩

end FiveSim
